import Mathlib

/-!
Verification development for the AI-LEGO-HEAD robot head controller.

The Lean definitions below are shallow embeddings of the Python source:
* `visionFunctions.py` — tracking state, random focus targets, coordinate
  normalisation (`visionHandler`);
* `threadHandler.py` — the per-cycle tracking loop body (`tracking_handler`);
* `ev3Functions.py` — motor tolerance checks, camera tilt correction and the
  eye/neck gaze split (`ev3Handler`);
* `geminiFunctions.py` — the chat-response post-processing that extracts an
  emotion tag (`GeminiHandler.get_chat_response`), and
  `ev3Handler.get_motor_positions` which consumes it;
* `main.py` — the conversation turn loop.

Python machine integers are modelled as `ℤ`/`ℕ` (Python ints are unbounded),
Python float arithmetic on coordinates is idealised as exact `ℚ` arithmetic,
`int(...)` truncation toward zero is `pytrunc`, and the `random.randint`
draws are passed in as explicit inputs constrained by hypotheses.
-/

namespace DaveHead

/-- Truncation toward zero, the behaviour of Python's `int()` on a number. -/
def pytrunc (q : ℚ) : ℤ := if 0 ≤ q then ⌊q⌋ else ⌈q⌉

/-- Clamp a rational to `[-1, 1]`; mirrors `max(-1.0, min(1.0, i))` used in
`visionHandler.calculate_relative_coords` and
`ev3Handler.convert_to_theoretical_coords`. -/
def clamp1 (q : ℚ) : ℚ := max (-1) (min 1 q)

/-! ## Vision layer (`visionFunctions.py`) -/

/-- Pixel-space bounding box `(x, y, w, h)` as produced by the detectors and
by `set_random_tracking`. -/
abbrev Bbox := ℤ × ℤ × ℤ × ℤ

/-- Mutable tracking state of `visionHandler` that the tracking loop reads and
writes: `self.track_position`, `self.is_tracking`, `self.is_locked`,
`self.label`. -/
structure VisionState where
  track_position : Option Bbox
  is_tracking : Bool
  is_locked : Bool
  label : String
deriving DecidableEq

/-- One call of `visionHandler.face_hand_tracking`.  The raw detector outcome
(together with the label the function would derive from the mode and the
recognised face names) is an explicit input `det`.  On success the function
stores the detection, sets `is_tracking` and releases the lock
(lines 294-301); on failure it clears `is_tracking` only when no lock is held
(line 305) and returns no position. -/
def face_hand_tracking (st : VisionState) (det : Option (Bbox × String)) :
    VisionState × Option Bbox :=
  match det with
  | some (pos, lbl) =>
      ({ track_position := some pos, is_tracking := true, is_locked := false,
         label := lbl }, some pos)
  | none =>
      (if st.is_locked then st else { st with is_tracking := false }, none)

/-- Side length drawn by `visionHandler.set_random_tracking`:
`int(min(W, H) * (randint(5, 40)/100))` where `W`, `H` are the effective
window dimensions (`WINDOW_WIDTH/scale_factor`, `WINDOW_HEIGHT/scale_factor`,
assumed integral) and `p` is the `randint(5, 40)` draw. -/
def srt_size (W H p : ℕ) : ℕ := min W H * p / 100

/-- The random focus bounding box of `visionHandler.set_random_tracking`:
`x = randint(0, W-size)`, `y = randint(0, H-size)`; the draws `rx`, `ry`
are explicit inputs (theorems constrain them to the `randint` ranges). -/
def srt_bbox (W H p rx ry : ℕ) : ℕ × ℕ × ℕ :=
  (rx, ry, srt_size W H p)

/-- One call of `visionHandler.set_random_tracking` (lines 310-334): draws a
random square, stores it as the tracked target, sets `is_tracking`, locks it
and labels it "Focus". -/
def set_random_tracking (W H p rx ry : ℕ) (_st : VisionState) :
    VisionState × Bbox :=
  let b := srt_bbox W H p rx ry
  let pos : Bbox := ((b.1 : ℤ), (b.2.1 : ℤ), (b.2.2 : ℤ), (b.2.2 : ℤ))
  ({ track_position := some pos, is_tracking := true, is_locked := true,
     label := "Focus" }, pos)

/-- Normalisation of a pixel bounding box by
`visionHandler.calculate_relative_coords` (lines 336-359): `x` and `y` are
divided by the half frame dimension (`shape // 2`, integer division) and
shifted, `w` and `h` are divided by the full frame dimension, and all four
components are clamped to `[-1, 1]`. -/
def calculate_relative_coords (fw fh : ℕ) (bbox : ℚ × ℚ × ℚ × ℚ) :
    ℚ × ℚ × ℚ × ℚ :=
  let x := bbox.1 / ((fw / 2 : ℕ) : ℚ) - 1
  let y := bbox.2.1 / ((fh / 2 : ℕ) : ℚ) - 1
  let w := bbox.2.2.1 / (fw : ℚ)
  let h := bbox.2.2.2 / (fh : ℚ)
  (clamp1 x, clamp1 y, clamp1 w, clamp1 h)

/-! ## Tracking loop body (`threadHandler.py`) -/

/-- The random-attention trigger condition of
`threadHandler.tracking_handler` line 96: the cycle looks at a random point
when `randint(0, RANDOM_EYES_INTERVAL) == 1`. -/
def random_eyes_triggered (draw : ℕ) : Bool := draw == 1

/-- One iteration of `threadHandler.tracking_handler` (lines 90-107), up to
the actuation call: run the detector, and when the detection succeeded or the
random-attention draw triggered, produce the position handed to
`calculate_relative_coords`/`eye_tracking` (`some`), otherwise do nothing
(`none`).  `draw` is the `randint(0, RANDOM_EYES_INTERVAL)` outcome and
`p`, `rx`, `ry` are the draws consumed by `set_random_tracking` when the
random branch is taken. -/
def tracking_cycle (W H : ℕ) (st : VisionState) (det : Option (Bbox × String))
    (draw p rx ry : ℕ) : VisionState × Option Bbox :=
  let fh := face_hand_tracking st det
  match fh.2 with
  | some pos => (fh.1, some pos)
  | none =>
      if random_eyes_triggered draw then
        let sr := set_random_tracking W H p rx ry fh.1
        (sr.1, some sr.2)
      else
        (fh.1, none)

/-! ## Actuator facade (`ev3Functions.py`) -/

/-- Tolerance check of `ev3Handler.within_tolerance` (lines 341-353):
`abs(target - current) <= self.TOLERANCE` (on the connected robot,
`use_Mindstorms = true`). -/
def within_tolerance (TOLERANCE target current : ℤ) : Bool :=
  |target - current| ≤ TOLERANCE

/-- The `move_motor_if_needed` helper inside `ev3Handler.eye_tracking`
(lines 392-394), used for the vertical eye, horizontal eye and neck motors:
issues `start_move_to(target)` only when the target is not within tolerance
of the current position.  `none` models "no motor command issued". -/
def move_motor_if_needed (TOLERANCE target current : ℤ) : Option ℤ :=
  if within_tolerance TOLERANCE target current then none else some target

/-- The numeric path of `ev3Handler.move_eyebrows` (lines 262-285): command
`start_move_to(position)` unless already within tolerance. -/
def move_eyebrows (TOLERANCE position current : ℤ) : Option ℤ :=
  if ¬ within_tolerance TOLERANCE position current then some position else none

/-- The body of `ev3Handler.move_mouth` (lines 297-312): command
`start_move_to(position)` unless already within tolerance. -/
def move_mouth (TOLERANCE position current : ℤ) : Option ℤ :=
  if ¬ within_tolerance TOLERANCE position current then some position else none

/-- The camera tilt correction `ev3Handler.convert_to_theoretical_coords`
(lines 355-380) over a normalised bounding box.  `rad` is the degree-to-radian
conversion factor `π/180` of `np.radians`, kept abstract so that the
definition stays executable; the theorems hold for every value of it. -/
def convert_to_theoretical_coords (rad CAM_ANGLE CAM_FOV CAM_HEIGHT_DIFF : ℚ)
    (bbox : ℚ × ℚ × ℚ × ℚ) : ℚ × ℚ × ℚ × ℚ :=
  let x := bbox.1
  let y := bbox.2.1
  let w := bbox.2.2.1
  let h := bbox.2.2.2
  let tilt_angle_rad := CAM_ANGLE * rad
  let fov_rad := CAM_FOV * rad
  let vertical_angle := y * (fov_rad / 2)
  let corrected_vertical_angle :=
    vertical_angle - tilt_angle_rad + h * CAM_HEIGHT_DIFF
  let corrected_y := corrected_vertical_angle / (fov_rad / 2)
  (x, clamp1 corrected_y, w, h)

/-- The combined horizontal angle of `ev3Handler.eye_tracking` line 409:
`int(x * (EYE_HORIZONTAL_AMPLITUDE + NECK_AMPLITUDE/NECK_EYE_DIFF))`.  The
eye horizontal amplitude is an integer number of degrees (config), kept as
`ℤ`. -/
def horizontal_combined (EYE_HORIZONTAL_AMPLITUDE : ℤ)
    (NECK_AMPLITUDE NECK_EYE_DIFF x : ℚ) : ℤ :=
  pytrunc (x * ((EYE_HORIZONTAL_AMPLITUDE : ℚ) + NECK_AMPLITUDE / NECK_EYE_DIFF))

/-- The eye/neck split of the combined horizontal angle,
`ev3Handler.eye_tracking` lines 410-418: returns
`(horizontal_eye_angle, neck_angle)`.  A combined angle of `0` yields `(0,0)`;
otherwise the eye takes the whole angle while strictly below its amplitude,
else it saturates at `int(sign * amplitude)` and the remainder scaled by
`NECK_EYE_DIFF` drives the neck. -/
def horizontal_split (EYE_HORIZONTAL_AMPLITUDE : ℤ) (NECK_EYE_DIFF : ℚ)
    (combined : ℤ) : ℤ × ℤ :=
  if combined = 0 then (0, 0)
  else
    let max_horizontal_eye_angle :=
      combined / |combined| * EYE_HORIZONTAL_AMPLITUDE
    let horizontal_eye_angle :=
      if |combined| < EYE_HORIZONTAL_AMPLITUDE then combined
      else max_horizontal_eye_angle
    let neck_angle :=
      if horizontal_eye_angle = max_horizontal_eye_angle then
        pytrunc (((combined - horizontal_eye_angle : ℤ) : ℚ) * NECK_EYE_DIFF)
      else 0
    (horizontal_eye_angle, neck_angle)

/-- Emotion table from `ev3_config.json`: an association list from emotion
name to `(mouth_multiplier, eyebrow_multiplier)`. -/
abbrev EmotionTable := List (String × ℚ × ℚ)

/-- The configured emotion names, `list(ev3_info["emotions"].keys())` as
loaded by `GeminiHandler.__init__` (geminiFunctions.py lines 34-36). -/
def emotion_keys (table : EmotionTable) : List String := table.map (·.1)

/-- Dictionary lookup `self.EMOTIONS[emotion]`; `none` models the `KeyError`
raised on an unknown key. -/
def lookup_emotion (table : EmotionTable) (emotion : String) :
    Option (ℚ × ℚ) :=
  (table.find? (fun p => p.1 == emotion)).map (·.2)

/-- Motor range `{low, high}` from `ev3_config.json` (`mouth_range`,
`eyebrow_range`). -/
structure MotorRange where
  low : ℚ
  high : ℚ

/-- The body of `ev3Handler.get_motor_positions` (lines 314-339): look the
emotion up in the table and scale the negative multipliers by the low range
bound and the nonnegative ones by the high bound.  `none` models the
`KeyError` on an emotion missing from the table. -/
def get_motor_positions (table : EmotionTable)
    (MOUTH_RANGE EYEBROW_RANGE : MotorRange) (emotion : String) :
    Option (ℚ × ℚ) :=
  match lookup_emotion table emotion with
  | none => none
  | some (rel_mouth, rel_eyebrow) =>
      let mouth :=
        if rel_mouth < 0 then |rel_mouth| * MOUTH_RANGE.low
        else rel_mouth * MOUTH_RANGE.high
      let eyebrow :=
        if rel_eyebrow < 0 then |rel_eyebrow| * EYEBROW_RANGE.low
        else rel_eyebrow * EYEBROW_RANGE.high
      some (mouth, eyebrow)

/-! ## Chat response processing (`geminiFunctions.py`) -/

/-- Python `str.lower()` restricted to ASCII (the shutdown phrase and the
emotion tags are ASCII): lowercase every character. -/
def pylower (s : String) : String := String.mk (s.data.map Char.toLower)

/-- Whitespace for Python's `str.split()` and `str.strip()`:
space, tab, newline, vertical tab, form feed, carriage return. -/
def pyIsSpace (c : Char) : Bool :=
  c == ' ' || c == '\t' || c == '\n' || c == '\r' ||
  c == Char.ofNat 11 || c == Char.ofNat 12

/-- Python `str.strip()`: drop leading and trailing whitespace. -/
def pystrip (s : List Char) : List Char :=
  ((s.dropWhile pyIsSpace).reverse.dropWhile pyIsSpace).reverse

/-- Python `str.split(maxsplit=1)`: `none` when the string holds no word,
otherwise the first word and, when anything non-blank follows it, the rest of
the string with its leading whitespace removed. -/
def pysplit1 (s : List Char) : Option (List Char × Option (List Char)) :=
  let s1 := s.dropWhile pyIsSpace
  match s1 with
  | [] => none
  | _ =>
      let w := s1.takeWhile (fun c => ¬ pyIsSpace c)
      let rest := (s1.dropWhile (fun c => ¬ pyIsSpace c)).dropWhile pyIsSpace
      some (w, if rest = [] then none else some rest)

/-- The filter of `get_chat_response` line 194:
`re.sub(r'[^\x20-\x7E]', '', text.replace('\n', ' '))` — newlines become
spaces, then every character outside printable ASCII is removed. -/
def filter_printable (s : List Char) : List Char :=
  (s.map (fun c => if c == '\n' then ' ' else c)).filter
    (fun c => 32 ≤ c.toNat && c.toNat ≤ 126)

/-- Python `random.choice` on a non-empty list, with the random draw made
explicit as an index reduced modulo the length. -/
def pychoice (l : List String) (idx : ℕ) : String := l.getD (idx % l.length) ""

/-- Outcome of the Gemini call inside `get_chat_response`, before the text
post-processing:  the chat object may be uninitialised (line 172), extracting
`response.text` may raise (lines 180-187), or a raw text is obtained. -/
inductive GeminiOutcome where
  | chatMissing : GeminiOutcome
  | noTextAttr : GeminiOutcome
  | textFailure : GeminiOutcome
  | ok : String → GeminiOutcome

/-- The emotion/text extraction of `GeminiHandler.get_chat_response`
(lines 193-229) on an obtained raw text: filter to printable ASCII, split off
the first word, keep only its letters lowercased, and use it as the emotion
exactly when it is a configured emotion and more text follows; in every other
case a uniformly random configured emotion is chosen (`choice(self.EMOTIONS)`,
draw `idx`) and the whole filtered text is kept. -/
def process_response (EMOTIONS : List String) (idx : ℕ) (t : String) :
    String × String :=
  let text_response_filtered := pystrip (filter_printable t.data)
  match pysplit1 text_response_filtered with
  | none => (String.mk text_response_filtered, pychoice EMOTIONS idx)
  | some (w, orest) =>
      let potential_emotion :=
        String.mk (pystrip ((w.filter Char.isAlpha).map Char.toLower))
      match orest with
      | some r =>
          if potential_emotion ∈ EMOTIONS then
            (String.mk r, potential_emotion)
          else
            (String.mk text_response_filtered, pychoice EMOTIONS idx)
      | none => (String.mk text_response_filtered, pychoice EMOTIONS idx)

/-- `GeminiHandler.get_chat_response` (lines 152-229) as a function of the
configured emotion list, the random draw for `choice` and the Gemini call
outcome: the error paths return fixed messages with a random emotion, the
success path post-processes the text with `process_response`. -/
def get_chat_response (EMOTIONS : List String) (idx : ℕ)
    (resp : GeminiOutcome) : String × String :=
  match resp with
  | .chatMissing => ("Error: Chat not initialized.", pychoice EMOTIONS idx)
  | .noTextAttr =>
      ("Error: Could not get text from response.", pychoice EMOTIONS idx)
  | .textFailure =>
      ("Error: Could not process response.", pychoice EMOTIONS idx)
  | .ok t => process_response EMOTIONS idx t

/-! ## Conversation turn loop (`main.py`) -/

/-- One turn's inputs in the `main.py` loop: the result of
`listening.speech_recognition()` — the transcript and whether speech was
audible/transcribed. -/
structure ConvTurn where
  prompt : String
  audible : Bool

/-- Per-turn outcome of the `main.py` loop body (lines 26-56). -/
inductive TurnOutcome where
  | idle : TurnOutcome
  | shutdown : TurnOutcome
  | replied : String → TurnOutcome
deriving DecidableEq

/-- The body of one iteration of the `main.py` conversation loop
(lines 40-56): an inaudible turn re-arms the wake word and continues; an
audible transcript whose lowercase form is exactly "shut down" breaks the
loop; any other audible transcript is sent to
`gemini.get_chat_response` (`replied`). -/
def conv_step (t : ConvTurn) : TurnOutcome :=
  if ¬ t.audible then .idle
  else if pylower t.prompt = "shut down" then .shutdown
  else .replied t.prompt

/-- The `main.py` conversation loop run on a list of turns, threading the
`justTalked` flag (`true` skips the wake word): returns the list of
transcripts handed to `gemini.get_chat_response` and whether the loop was
terminated by the shutdown phrase. -/
def conv_run (_justTalked : Bool) : List ConvTurn → List String × Bool
  | [] => ([], false)
  | t :: ts =>
      match conv_step t with
      | .idle => conv_run false ts
      | .shutdown => ([], true)
      | .replied p =>
          let res := conv_run true ts
          (p :: res.1, res.2)

/-- The lowercased, letters-only leading word of a raw response after the
printable-ASCII filter: the candidate emotion tag that
`get_chat_response` lines 197-204 extract (empty when the response holds no
word). -/
def leading_tag (t : String) : String :=
  match pysplit1 (pystrip (filter_printable t.data)) with
  | none => ""
  | some (w, _) =>
      String.mk (pystrip ((w.filter Char.isAlpha).map Char.toLower))

/-! ## Helper lemmas -/

theorem clamp1_le_one (q : ℚ) : clamp1 q ≤ 1 := by
  unfold clamp1
  exact max_le (by norm_num) (min_le_left 1 q)

theorem neg_one_le_clamp1 (q : ℚ) : -1 ≤ clamp1 q := le_max_left _ _

theorem clamp1_nonneg (q : ℚ) (h : 0 ≤ q) : 0 ≤ clamp1 q := by
  unfold clamp1
  exact le_max_of_le_right (le_min (by norm_num) h)

/-! ## Claim C1 -/

/-- C1 counterexample.  The claim says a held locked random target with
bounding box B is never regenerated or replaced by a failed-detection cycle,
"even when the random-attention draw triggers again".  In the code the
random branch of `tracking_handler` calls `set_random_tracking`
unconditionally, so a failed cycle whose draw is 1 regenerates the target:
from a locked state holding B = (0,0,10,10), a failed detection with draw 1
(possible whenever `RANDOM_EYES_INTERVAL ≥ 1`) and random draws
p=10, rx=5, ry=5 replaces B with (5,5,10,10). -/
theorem C1_counterexample :
    (tracking_cycle 100 100 ⟨some (0, 0, 10, 10), true, true, "Focus"⟩
        none 1 10 5 5).1.track_position = some (5, 5, 10, 10) ∧
    (tracking_cycle 100 100 ⟨some (0, 0, 10, 10), true, true, "Focus"⟩
        none 1 10 5 5).1.track_position ≠ some (0, 0, 10, 10) := by
  decide

/-- C1 amended.  Once a locked random target B is held: a failed-detection
cycle whose random-attention draw does not trigger leaves the tracked target
equal to B and keeps the lock; a failed-detection cycle whose draw does
trigger regenerates a fresh random locked target (replacing B); and any cycle
whose detection succeeds replaces the target with the detection's bounding
box and releases the lock. -/
theorem C1_theorem (W H : ℕ) (st : VisionState) (det : Option (Bbox × String))
    (draw p rx ry : ℕ) :
    (det = none → random_eyes_triggered draw = false →
      (tracking_cycle W H st det draw p rx ry).1.track_position =
          st.track_position ∧
      (tracking_cycle W H st det draw p rx ry).1.is_locked = st.is_locked) ∧
    (det = none → random_eyes_triggered draw = true →
      (tracking_cycle W H st det draw p rx ry).1.track_position =
        some ((rx : ℤ), (ry : ℤ), (srt_size W H p : ℤ), (srt_size W H p : ℤ)) ∧
      (tracking_cycle W H st det draw p rx ry).1.is_locked = true) ∧
    (∀ pos lbl, det = some (pos, lbl) →
      (tracking_cycle W H st det draw p rx ry).1.track_position = some pos ∧
      (tracking_cycle W H st det draw p rx ry).1.is_locked = false) := by
  refine ⟨?_, ?_, ?_⟩
  · rintro rfl hdraw
    by_cases hl : st.is_locked <;>
      simp [tracking_cycle, face_hand_tracking, hdraw, hl]
  · rintro rfl hdraw
    simp [tracking_cycle, face_hand_tracking, hdraw, set_random_tracking,
      srt_bbox]
  · rintro pos lbl rfl
    simp [tracking_cycle, face_hand_tracking]

/-- C1 witness: a locked target (0,0,10,10) survives a failed-detection cycle
whose draw (0) does not trigger, with the lock kept. -/
theorem C1_witness :
    (tracking_cycle 100 100 ⟨some (0, 0, 10, 10), true, true, "Focus"⟩
        none 0 10 5 5).1.track_position = some (0, 0, 10, 10) ∧
    (tracking_cycle 100 100 ⟨some (0, 0, 10, 10), true, true, "Focus"⟩
        none 0 10 5 5).1.is_locked = true :=
  (C1_theorem 100 100 ⟨some (0, 0, 10, 10), true, true, "Focus"⟩
    none 0 10 5 5).1 rfl rfl

/-! ## Claim C2 -/

/-- C2 counterexample.  The claim says the trigger condition is satisfied by
exactly one value of the uniform draw over `[0, RANDOM_EYES_INTERVAL]`, and
in particular that with `RANDOM_EYES_INTERVAL = 0` every failed-detection
cycle triggers.  The code's condition (`randint(0, interval) == 1`) is
satisfied by no value at all when the interval is 0 (the only draw is 0), so
a failed-detection cycle then never enters random tracking: the cycle issues
no actuation and the state gains no target. -/
theorem C2_counterexample :
    ((Finset.Icc 0 0).filter (fun d => random_eyes_triggered d = true)).card
        = 0 ∧
    (tracking_cycle 100 100 ⟨none, false, false, "Unknown"⟩
        none 0 10 5 5).2 = none ∧
    (tracking_cycle 100 100 ⟨none, false, false, "Unknown"⟩
        none 0 10 5 5).1.track_position = none := by
  decide

/-- C2 amended.  For every `RANDOM_EYES_INTERVAL ≥ 1`, exactly one value of
the uniform draw over `[0, RANDOM_EYES_INTERVAL]` (namely 1) satisfies the
trigger condition, so a failed-detection cycle triggers with probability
`1/(RANDOM_EYES_INTERVAL+1)`; with `RANDOM_EYES_INTERVAL = 0` the trigger
never fires. -/
theorem C2_theorem (I : ℕ) (hI : 1 ≤ I) :
    ((Finset.Icc 0 I).filter (fun d => random_eyes_triggered d = true)).card
        = 1 ∧
    (∀ d, random_eyes_triggered d = true ↔ d = 1) := by
  constructor
  · have hset : (Finset.Icc 0 I).filter
        (fun d => random_eyes_triggered d = true) = {1} := by
      ext d
      simp only [Finset.mem_filter, Finset.mem_Icc, Finset.mem_singleton,
        random_eyes_triggered, beq_iff_eq]
      omega
    rw [hset, Finset.card_singleton]
  · intro d
    simp [random_eyes_triggered]

/-- C2 witness: with `RANDOM_EYES_INTERVAL = 3` exactly one of the four
possible draws triggers. -/
theorem C2_witness :
    ((Finset.Icc 0 3).filter (fun d => random_eyes_triggered d = true)).card
        = 1 ∧
    (∀ d, random_eyes_triggered d = true ↔ d = 1) :=
  C2_theorem 3 (by decide)

/-! ## Claim C3 -/

/-- C3 counterexample.  The claim says the side length is strictly between
5% and 40% of the smaller window dimension.  `randint(5, 40)` is inclusive at
both ends: on a 100×100 window the draw 40 gives side 40 (exactly 40%, not
strictly below) and the draw 5 gives side 5 (exactly 5%, not strictly
above). -/
theorem C3_counterexample :
    (srt_bbox 100 100 40 0 0).2.2 = 40 ∧
    ¬ (100 * (srt_bbox 100 100 40 0 0).2.2 < 40 * min 100 100) ∧
    (srt_bbox 100 100 5 0 0).2.2 = 5 ∧
    ¬ (5 * min 100 100 < 100 * (srt_bbox 100 100 5 0 0).2.2) := by
  decide

/-- C3 amended.  For every window size and every outcome of the random draws
(`p` the `randint(5,40)` draw, `rx`, `ry` the position draws within their
`randint` ranges), the generated focus target is a square `(x, y, s, s)`
lying fully inside the window (coordinates are naturals, hence nonnegative,
and `x+s ≤ W`, `y+s ≤ H`), with side length between 5% and 40% of
`min(W, H)` inclusive, up to the floor of `int()` (so `100·s ≤ 40·min(W,H)`
and `100·(s+1) > 5·min(W,H)`). -/
theorem C3_theorem (W H p rx ry : ℕ) (st : VisionState)
    (hp5 : 5 ≤ p) (hp40 : p ≤ 40)
    (hrx : rx ≤ W - srt_size W H p) (hry : ry ≤ H - srt_size W H p) :
    (set_random_tracking W H p rx ry st).2 =
      ((rx : ℤ), (ry : ℤ), (srt_size W H p : ℤ), (srt_size W H p : ℤ)) ∧
    rx + srt_size W H p ≤ W ∧ ry + srt_size W H p ≤ H ∧
    100 * srt_size W H p ≤ 40 * min W H ∧
    5 * min W H < 100 * (srt_size W H p + 1) := by
  have hdm : srt_size W H p * 100 ≤ min W H * p := Nat.div_mul_le_self _ _
  have h40 : min W H * p ≤ min W H * 40 := Nat.mul_le_mul_left _ hp40
  have h5 : min W H * 5 ≤ min W H * p := Nat.mul_le_mul_left _ hp5
  have hmod : min W H * p % 100 < 100 := Nat.mod_lt _ (by norm_num)
  have hdecomp : 100 * (min W H * p / 100) + min W H * p % 100 =
      min W H * p := Nat.div_add_mod _ _
  have hsize : srt_size W H p = min W H * p / 100 := rfl
  have h100 : 100 * srt_size W H p ≤ 40 * min W H := by
    rw [hsize]; linarith
  have hsm : srt_size W H p ≤ min W H := by linarith
  have hsW : srt_size W H p ≤ W := le_trans hsm (Nat.min_le_left W H)
  have hsH : srt_size W H p ≤ H := le_trans hsm (Nat.min_le_right W H)
  refine ⟨rfl, by omega, by omega, h100, ?_⟩
  rw [hsize]
  linarith

/-- C3 witness: on a 100×100 window with draws p=20, rx=3, ry=4 the generated
bbox is the square (3, 4, 20, 20), fully inside, with side within the
bounds. -/
theorem C3_witness :
    (set_random_tracking 100 100 20 3 4 ⟨none, false, false, "Unknown"⟩).2 =
      ((3 : ℤ), (4 : ℤ), (srt_size 100 100 20 : ℤ), (srt_size 100 100 20 : ℤ)) ∧
    3 + srt_size 100 100 20 ≤ 100 ∧ 4 + srt_size 100 100 20 ≤ 100 ∧
    100 * srt_size 100 100 20 ≤ 40 * min 100 100 ∧
    5 * min 100 100 < 100 * (srt_size 100 100 20 + 1) :=
  C3_theorem 100 100 20 3 4 ⟨none, false, false, "Unknown"⟩
    (by decide) (by decide) (by decide) (by decide)

/-! ## Claim C4 -/

/-- C4.  For every pixel bbox within the frame bounds, the normalised bbox
has `x` and `y` computed by dividing by the integer half dimension and
shifting, then clamping, and lies in `[-1,1] × [-1,1] × [0,1] × [0,1]`. -/
theorem C4_theorem (fw fh : ℕ) (x y w h : ℚ)
    (_hfw : 2 ≤ fw) (_hfh : 2 ≤ fh)
    (_hx0 : 0 ≤ x) (_hx1 : x ≤ (fw : ℚ)) (_hy0 : 0 ≤ y) (_hy1 : y ≤ (fh : ℚ))
    (hw0 : 0 ≤ w) (_hw1 : w ≤ (fw : ℚ)) (hh0 : 0 ≤ h) (_hh1 : h ≤ (fh : ℚ)) :
    (calculate_relative_coords fw fh (x, y, w, h)).1 =
        clamp1 (x / ((fw / 2 : ℕ) : ℚ) - 1) ∧
    (calculate_relative_coords fw fh (x, y, w, h)).2.1 =
        clamp1 (y / ((fh / 2 : ℕ) : ℚ) - 1) ∧
    -1 ≤ (calculate_relative_coords fw fh (x, y, w, h)).1 ∧
    (calculate_relative_coords fw fh (x, y, w, h)).1 ≤ 1 ∧
    -1 ≤ (calculate_relative_coords fw fh (x, y, w, h)).2.1 ∧
    (calculate_relative_coords fw fh (x, y, w, h)).2.1 ≤ 1 ∧
    0 ≤ (calculate_relative_coords fw fh (x, y, w, h)).2.2.1 ∧
    (calculate_relative_coords fw fh (x, y, w, h)).2.2.1 ≤ 1 ∧
    0 ≤ (calculate_relative_coords fw fh (x, y, w, h)).2.2.2 ∧
    (calculate_relative_coords fw fh (x, y, w, h)).2.2.2 ≤ 1 :=
  ⟨rfl, rfl, neg_one_le_clamp1 _, clamp1_le_one _,
   neg_one_le_clamp1 _, clamp1_le_one _,
   clamp1_nonneg _ (div_nonneg hw0 (Nat.cast_nonneg fw)), clamp1_le_one _,
   clamp1_nonneg _ (div_nonneg hh0 (Nat.cast_nonneg fh)), clamp1_le_one _⟩

/-- C4 witness on a 640×480 frame with bbox (320, 240, 100, 50). -/
theorem C4_witness :
    (calculate_relative_coords 640 480 (320, 240, 100, 50)).1 =
        clamp1 ((320 : ℚ) / ((640 / 2 : ℕ) : ℚ) - 1) ∧
    (calculate_relative_coords 640 480 (320, 240, 100, 50)).2.1 =
        clamp1 ((240 : ℚ) / ((480 / 2 : ℕ) : ℚ) - 1) ∧
    -1 ≤ (calculate_relative_coords 640 480 (320, 240, 100, 50)).1 ∧
    (calculate_relative_coords 640 480 (320, 240, 100, 50)).1 ≤ 1 ∧
    -1 ≤ (calculate_relative_coords 640 480 (320, 240, 100, 50)).2.1 ∧
    (calculate_relative_coords 640 480 (320, 240, 100, 50)).2.1 ≤ 1 ∧
    0 ≤ (calculate_relative_coords 640 480 (320, 240, 100, 50)).2.2.1 ∧
    (calculate_relative_coords 640 480 (320, 240, 100, 50)).2.2.1 ≤ 1 ∧
    0 ≤ (calculate_relative_coords 640 480 (320, 240, 100, 50)).2.2.2 ∧
    (calculate_relative_coords 640 480 (320, 240, 100, 50)).2.2.2 ≤ 1 :=
  C4_theorem 640 480 320 240 100 50 (by norm_num) (by norm_num) (by norm_num)
    (by norm_num) (by norm_num) (by norm_num) (by norm_num) (by norm_num)
    (by norm_num) (by norm_num)

/-! ## Claim C5 -/

/-- On a nonzero integer, division by the absolute value is the sign; this is
what `combined/abs(combined)` computes in `eye_tracking`. -/
theorem int_div_abs (c : ℤ) (hc : c ≠ 0) : c / |c| = c.sign := by
  rcases lt_trichotomy c 0 with h | h | h
  · rw [abs_of_neg h, Int.ediv_neg, Int.ediv_self hc,
      Int.sign_eq_neg_one_of_neg h]
  · exact absurd h hc
  · rw [abs_of_pos h, Int.ediv_self hc, Int.sign_eq_one_of_pos h]

/-- The sign of a nonzero integer has absolute value one. -/
theorem abs_sign_of_ne_zero (c : ℤ) (hc : c ≠ 0) : |c.sign| = 1 := by
  rcases lt_trichotomy c 0 with h | h | h
  · rw [Int.sign_eq_neg_one_of_neg h]; decide
  · exact absurd h hc
  · rw [Int.sign_eq_one_of_pos h]; decide

/-- C5.  The horizontal gaze split of `eye_tracking`: with `combined` the
scaled horizontal angle, a combined angle of zero yields eye and neck angles
of zero; a combined magnitude strictly below the eye amplitude gives the eye
the full angle and the neck zero; otherwise the eye saturates at its signed
amplitude limit and the remainder, scaled by `NECK_EYE_DIFF`, drives the
neck. -/
theorem C5_theorem (EHA : ℤ) (NA NED x : ℚ) :
    (horizontal_combined EHA NA NED x = 0 →
      horizontal_split EHA NED (horizontal_combined EHA NA NED x) = (0, 0)) ∧
    (|horizontal_combined EHA NA NED x| < EHA →
      horizontal_split EHA NED (horizontal_combined EHA NA NED x) =
        (horizontal_combined EHA NA NED x, 0)) ∧
    (horizontal_combined EHA NA NED x ≠ 0 →
      EHA ≤ |horizontal_combined EHA NA NED x| →
      horizontal_split EHA NED (horizontal_combined EHA NA NED x) =
        ((horizontal_combined EHA NA NED x).sign * EHA,
         pytrunc (((horizontal_combined EHA NA NED x -
           (horizontal_combined EHA NA NED x).sign * EHA : ℤ) : ℚ) * NED))) := by
  set c := horizontal_combined EHA NA NED x with hc
  refine ⟨?_, ?_, ?_⟩
  · intro h0
    simp [horizontal_split, h0]
  · intro hlt
    by_cases h0 : c = 0
    · rw [h0] at hlt ⊢
      simp [horizontal_split]
    · have hne : c ≠ c / |c| * EHA := by
        rw [int_div_abs c h0]
        intro heq
        have habs : |c| = EHA := by
          rw [heq, abs_mul, abs_sign_of_ne_zero c h0, one_mul,
            abs_of_pos (lt_of_le_of_lt (abs_nonneg c) hlt)]
        rw [habs] at hlt
        exact lt_irrefl _ hlt
      simp only [horizontal_split, if_neg h0, if_pos hlt, if_neg hne]
  · intro h0 hge
    have hnotlt : ¬ (|c| < EHA) := not_lt.mpr hge
    simp only [horizontal_split, if_neg h0, if_neg hnotlt, if_pos rfl]
    rw [int_div_abs c h0]
    simp

/-- C5 witness: with eye amplitude 30, neck amplitude 90 and neck/eye ratio 3
at `x = 1`, the combined angle 60 saturates the eye at 30 and the remainder
drives the neck. -/
theorem C5_witness :
    horizontal_split 30 3 (horizontal_combined 30 90 3 1) =
      ((horizontal_combined 30 90 3 1).sign * 30,
       pytrunc (((horizontal_combined 30 90 3 1 -
         (horizontal_combined 30 90 3 1).sign * 30 : ℤ) : ℚ) * 3)) :=
  (C5_theorem 30 90 3 1).2.2 (by norm_num [horizontal_combined, pytrunc])
    (by norm_num [horizontal_combined, pytrunc])

/-! ## Claim C6 -/

/-- C6.  For each of the motorised move operations (the eye/neck helper of
`eye_tracking`, the eyebrows and the mouth), no motor command is issued
exactly when the target is within the configured tolerance of the current
position. -/
theorem C6_theorem (TOL target current : ℤ) :
    (move_motor_if_needed TOL target current = none ↔
        |target - current| ≤ TOL) ∧
    (move_eyebrows TOL target current = none ↔ |target - current| ≤ TOL) ∧
    (move_mouth TOL target current = none ↔ |target - current| ≤ TOL) := by
  refine ⟨?_, ?_, ?_⟩ <;>
  · simp only [move_motor_if_needed, move_eyebrows, move_mouth,
      within_tolerance]
    split_ifs with hcond <;> simp_all

/-! ## Claim C9 -/

/-- C9.  The camera tilt correction preserves the `x`, `w` and `h` components
of a normalised bbox exactly, and its corrected `y` component always lies in
`[-1, 1]`; this holds for every camera angle, field of view, height offset
and degree-to-radian factor. -/
theorem C9_theorem (rad CAM_ANGLE CAM_FOV CAM_HEIGHT_DIFF x y w h : ℚ) :
    (convert_to_theoretical_coords rad CAM_ANGLE CAM_FOV CAM_HEIGHT_DIFF
        (x, y, w, h)).1 = x ∧
    (convert_to_theoretical_coords rad CAM_ANGLE CAM_FOV CAM_HEIGHT_DIFF
        (x, y, w, h)).2.2.1 = w ∧
    (convert_to_theoretical_coords rad CAM_ANGLE CAM_FOV CAM_HEIGHT_DIFF
        (x, y, w, h)).2.2.2 = h ∧
    -1 ≤ (convert_to_theoretical_coords rad CAM_ANGLE CAM_FOV CAM_HEIGHT_DIFF
        (x, y, w, h)).2.1 ∧
    (convert_to_theoretical_coords rad CAM_ANGLE CAM_FOV CAM_HEIGHT_DIFF
        (x, y, w, h)).2.1 ≤ 1 :=
  ⟨rfl, rfl, rfl, neg_one_le_clamp1 _, clamp1_le_one _⟩

/-! ## Claim C7 -/

/-- C7.  An audible turn whose transcript lowercases exactly to "shut down"
makes the conversation loop break without ever handing that transcript to
`gemini.get_chat_response` (the run returns no prompts and terminates); an
audible transcript that does not match never produces the shutdown outcome. -/
theorem C7_theorem (t : ConvTurn) (ts : List ConvTurn) (jt : Bool)
    (haud : t.audible = true) :
    (pylower t.prompt = "shut down" →
      conv_step t = .shutdown ∧ conv_run jt (t :: ts) = ([], true)) ∧
    (pylower t.prompt ≠ "shut down" → conv_step t ≠ .shutdown) := by
  constructor
  · intro hsd
    have hstep : conv_step t = .shutdown := by
      simp [conv_step, haud, hsd]
    refine ⟨hstep, ?_⟩
    simp only [conv_run, hstep]
  · intro hsd
    simp [conv_step, haud, hsd]

/-- C7 witness: the audible transcript "Shut Down" terminates the loop with
no reply requested. -/
theorem C7_witness :
    conv_step ⟨"Shut Down", true⟩ = .shutdown ∧
    conv_run false [⟨"Shut Down", true⟩] = ([], true) :=
  ( C7_theorem ⟨"Shut Down", true⟩ [] false rfl).1 (by decide)

/-! ## Claims C8 and C10: emotion fallback -/

/-- Python's `random.choice` on a non-empty list returns a member of it. -/
theorem pychoice_mem (l : List String) (idx : ℕ) (h : l ≠ []) :
    pychoice l idx ∈ l := by
  unfold pychoice
  have hlen : idx % l.length < l.length :=
    Nat.mod_lt _ (List.length_pos.mpr h)
  rw [List.getD_eq_getElem _ _ hlen]
  exact List.getElem_mem hlen

/-- An emotion that is one of the configured keys is found in the emotion
table. -/
theorem lookup_emotion_isSome (table : EmotionTable) (e : String)
    (h : e ∈ emotion_keys table) : (lookup_emotion table e).isSome = true := by
  unfold lookup_emotion
  obtain ⟨pair, hmem, heq⟩ := List.mem_map.mp h
  have hfind : (List.find? (fun p => p.1 == e) table).isSome = true := by
    rw [List.find?_isSome]
    exact ⟨pair, hmem, by simp [heq]⟩
  obtain ⟨q, hq⟩ := Option.isSome_iff_exists.mp hfind
  rw [hq]
  rfl

/-- C10.  Whatever the raw model response (empty text, no valid leading
emotion word, or any of the error return paths), the emotion returned by
`get_chat_response` is always a member of the configured emotions list. -/
theorem C10_theorem (EMOTIONS : List String) (idx : ℕ) (resp : GeminiOutcome)
    (hne : EMOTIONS ≠ []) :
    (get_chat_response EMOTIONS idx resp).2 ∈ EMOTIONS := by
  cases resp with
  | chatMissing => exact pychoice_mem _ _ hne
  | noTextAttr => exact pychoice_mem _ _ hne
  | textFailure => exact pychoice_mem _ _ hne
  | ok t =>
      show (process_response EMOTIONS idx t).2 ∈ EMOTIONS
      unfold process_response
      cases hsplit : pysplit1 (pystrip (filter_printable t.data)) with
      | none =>
          simp only [hsplit]
          exact pychoice_mem _ _ hne
      | some pr =>
          obtain ⟨w, orest⟩ := pr
          cases orest with
          | none =>
              simp only [hsplit]
              exact pychoice_mem _ _ hne
          | some r =>
              simp only [hsplit]
              by_cases hmem :
                  String.mk (pystrip ((w.filter Char.isAlpha).map
                    Char.toLower)) ∈ EMOTIONS
              · simp [hmem]
              · simp only [if_neg hmem]
                exact pychoice_mem _ _ hne

/-- C10 witness: an empty raw response still yields a configured emotion. -/
theorem C10_witness :
    (get_chat_response ["happy"] 0 (.ok "")).2 ∈ ["happy"] :=
  C10_theorem ["happy"] 0 (.ok "") (by decide)

/-- C8 counterexample.  With the configured table {happy, sad} and the raw
response "bored hi", the tag "bored" is not in the table and there is no
"neutral" entry to fall back to; the returned emotion is a random table
member, depending on the draw ("happy" for draw 0, "sad" for draw 1) — not a
default neutral pose. -/
theorem C8_counterexample :
    leading_tag "bored hi" = "bored" ∧
    "bored" ∉ emotion_keys [("happy", (1, 1)), ("sad", (-1, -1))] ∧
    "neutral" ∉ emotion_keys [("happy", (1, 1)), ("sad", (-1, -1))] ∧
    (get_chat_response (emotion_keys [("happy", (1, 1)), ("sad", (-1, -1))]) 0
        (.ok "bored hi")).2 = "happy" ∧
    (get_chat_response (emotion_keys [("happy", (1, 1)), ("sad", (-1, -1))]) 1
        (.ok "bored hi")).2 = "sad" := by
  decide

/-- C8 amended.  An emitted emotion tag that is not among the configured
emotion keys makes `get_chat_response` fall back to a uniformly random member
of the configured list (not a fixed neutral default); the fallback is a valid
table entry, so `get_motor_positions` resolves it and the turn's gesture
still completes. -/
theorem C8_theorem (table : EmotionTable)
    (MOUTH_RANGE EYEBROW_RANGE : MotorRange) (idx : ℕ) (t : String)
    (hne : emotion_keys table ≠ [])
    (htag : leading_tag t ∉ emotion_keys table) :
    (get_chat_response (emotion_keys table) idx (.ok t)).2 =
        pychoice (emotion_keys table) idx ∧
    (get_chat_response (emotion_keys table) idx (.ok t)).2 ∈
        emotion_keys table ∧
    (get_motor_positions table MOUTH_RANGE EYEBROW_RANGE
        (get_chat_response (emotion_keys table) idx (.ok t)).2).isSome
      = true := by
  have hch : (get_chat_response (emotion_keys table) idx (.ok t)).2 =
      pychoice (emotion_keys table) idx := by
    show (process_response (emotion_keys table) idx t).2 = _
    unfold process_response
    cases hsplit : pysplit1 (pystrip (filter_printable t.data)) with
    | none => simp only [hsplit]
    | some pr =>
        obtain ⟨w, orest⟩ := pr
        have htag' : String.mk (pystrip ((w.filter Char.isAlpha).map
            Char.toLower)) ∉ emotion_keys table := by
          have : leading_tag t = String.mk (pystrip ((w.filter
              Char.isAlpha).map Char.toLower)) := by
            unfold leading_tag
            rw [hsplit]
          rw [this] at htag
          exact htag
        cases orest with
        | none => simp only [hsplit]
        | some r =>
            simp only [hsplit, if_neg htag']
  have hmem : (get_chat_response (emotion_keys table) idx (.ok t)).2 ∈
      emotion_keys table := by
    rw [hch]
    exact pychoice_mem _ _ hne
  refine ⟨hch, hmem, ?_⟩
  unfold get_motor_positions
  have hsome := lookup_emotion_isSome table _ hmem
  obtain ⟨v, hv⟩ := Option.isSome_iff_exists.mp hsome
  obtain ⟨rm, re⟩ := v
  rw [hv]
  rfl

/-- C8 witness: table {happy, sad}, response "bored hi", draw 0 — the
fallback emotion is the random member "happy", which the motor-position table
resolves. -/
theorem C8_witness :
    (get_chat_response (emotion_keys [("happy", (1, 1)), ("sad", (-1, -1))]) 0
        (.ok "bored hi")).2 =
      pychoice (emotion_keys [("happy", (1, 1)), ("sad", (-1, -1))]) 0 ∧
    (get_chat_response (emotion_keys [("happy", (1, 1)), ("sad", (-1, -1))]) 0
        (.ok "bored hi")).2 ∈
      emotion_keys [("happy", (1, 1)), ("sad", (-1, -1))] ∧
    (get_motor_positions [("happy", (1, 1)), ("sad", (-1, -1))] ⟨-10, 10⟩
        ⟨-20, 20⟩
        (get_chat_response (emotion_keys [("happy", (1, 1)),
          ("sad", (-1, -1))]) 0 (.ok "bored hi")).2).isSome = true :=
  C8_theorem [("happy", (1, 1)), ("sad", (-1, -1))] ⟨-10, 10⟩ ⟨-20, 20⟩ 0
    "bored hi" (by decide) (by decide)

end DaveHead
